import Mathlib

/-!
Verification of `windows/flutter/generated_plugin_registrant.cc` from the
Aniya repository.

The source file defines a single function

  void RegisterPlugins(flutter::PluginRegistry* registry)

that performs, for each of ten plugins, a lookup
`registry->GetRegistrarForPlugin("<Identifier>")` followed immediately by a
call to that plugin's registration entry point with the looked-up registrar.

We embed the function shallowly: the registry is an abstract stateful oracle
(a function from a registry state and a plugin-name string to a registrar
value and a new registry state), registration entry points are external, and
the observable behaviour of `RegisterPlugins` is the trace of events it
emits — one `getRegistrarForPlugin` event per lookup (recording the name
passed and the registrar returned) and one `registerWithRegistrar` event per
entry-point call (recording the entry point's name and the argument it
receives).  The registrar type `ρ` is abstract; a nullable registrar is
modelled by instantiating `ρ := Option μ` with `none` for the null pointer.
-/

namespace Aniya

/-- An observable event of a run of `RegisterPlugins`: either a call to
`registry->GetRegistrarForPlugin` with a plugin-name string, recording the
registrar it returned, or a call to one of the ten external registration
entry points, recording the registrar value passed as its argument. -/
inductive Event (ρ : Type) where
  | getRegistrarForPlugin (pluginName : String) (returned : ρ)
  | registerWithRegistrar (entryPoint : String) (registrar : ρ)
  deriving DecidableEq, Repr

/-- The registry abstraction consumed by the registrant:
`flutter::PluginRegistry` exposes one method, `GetRegistrarForPlugin`,
which the registrant observes only through the values it returns.  The
registry may carry internal state `σ` that each lookup can update; a
registrar has abstract type `ρ`. -/
structure PluginRegistry (σ ρ : Type) where
  GetRegistrarForPlugin : σ → String → ρ × σ

/-- Shallow embedding of `RegisterPlugins` from
`windows/flutter/generated_plugin_registrant.cc`: ten statements, each a
lookup `registry->GetRegistrarForPlugin("<Identifier>")` whose result is
passed directly to the plugin's registration entry point.  The result is
the emitted event trace together with the final registry state; the C++
function itself returns void. -/
def RegisterPlugins {σ ρ : Type} (registry : PluginRegistry σ ρ) (s0 : σ) :
    List (Event ρ) × σ :=
  let p1 := registry.GetRegistrarForPlugin s0 "DartotsuExtensionBridgePluginCApi"
  let p2 := registry.GetRegistrarForPlugin p1.2 "DesktopWebviewWindowPlugin"
  let p3 := registry.GetRegistrarForPlugin p2.2 "FlutterInappwebviewWindowsPluginCApi"
  let p4 := registry.GetRegistrarForPlugin p3.2 "FlutterQjsPlugin"
  let p5 := registry.GetRegistrarForPlugin p4.2 "FlutterSecureStorageWindowsPlugin"
  let p6 := registry.GetRegistrarForPlugin p5.2 "IsarFlutterLibsPlugin"
  let p7 := registry.GetRegistrarForPlugin p6.2 "MediaKitLibsWindowsVideoPluginCApi"
  let p8 := registry.GetRegistrarForPlugin p7.2 "MediaKitVideoPluginCApi"
  let p9 := registry.GetRegistrarForPlugin p8.2 "UrlLauncherWindows"
  let p10 := registry.GetRegistrarForPlugin p9.2 "WindowToFrontPlugin"
  ([Event.getRegistrarForPlugin "DartotsuExtensionBridgePluginCApi" p1.1,
    Event.registerWithRegistrar "DartotsuExtensionBridgePluginCApiRegisterWithRegistrar" p1.1,
    Event.getRegistrarForPlugin "DesktopWebviewWindowPlugin" p2.1,
    Event.registerWithRegistrar "DesktopWebviewWindowPluginRegisterWithRegistrar" p2.1,
    Event.getRegistrarForPlugin "FlutterInappwebviewWindowsPluginCApi" p3.1,
    Event.registerWithRegistrar "FlutterInappwebviewWindowsPluginCApiRegisterWithRegistrar" p3.1,
    Event.getRegistrarForPlugin "FlutterQjsPlugin" p4.1,
    Event.registerWithRegistrar "FlutterQjsPluginRegisterWithRegistrar" p4.1,
    Event.getRegistrarForPlugin "FlutterSecureStorageWindowsPlugin" p5.1,
    Event.registerWithRegistrar "FlutterSecureStorageWindowsPluginRegisterWithRegistrar" p5.1,
    Event.getRegistrarForPlugin "IsarFlutterLibsPlugin" p6.1,
    Event.registerWithRegistrar "IsarFlutterLibsPluginRegisterWithRegistrar" p6.1,
    Event.getRegistrarForPlugin "MediaKitLibsWindowsVideoPluginCApi" p7.1,
    Event.registerWithRegistrar "MediaKitLibsWindowsVideoPluginCApiRegisterWithRegistrar" p7.1,
    Event.getRegistrarForPlugin "MediaKitVideoPluginCApi" p8.1,
    Event.registerWithRegistrar "MediaKitVideoPluginCApiRegisterWithRegistrar" p8.1,
    Event.getRegistrarForPlugin "UrlLauncherWindows" p9.1,
    Event.registerWithRegistrar "UrlLauncherWindowsRegisterWithRegistrar" p9.1,
    Event.getRegistrarForPlugin "WindowToFrontPlugin" p10.1,
    Event.registerWithRegistrar "WindowToFrontPluginRegisterWithRegistrar" p10.1],
   p10.2)

/-- The fixed list of the ten plugin identifiers, in the order they appear
in the source. -/
def pluginIdentifiers : List String :=
  ["DartotsuExtensionBridgePluginCApi",
   "DesktopWebviewWindowPlugin",
   "FlutterInappwebviewWindowsPluginCApi",
   "FlutterQjsPlugin",
   "FlutterSecureStorageWindowsPlugin",
   "IsarFlutterLibsPlugin",
   "MediaKitLibsWindowsVideoPluginCApi",
   "MediaKitVideoPluginCApi",
   "UrlLauncherWindows",
   "WindowToFrontPlugin"]

/-- The fixed list of the ten external registration entry points, in source
order. -/
def pluginEntryPoints : List String :=
  ["DartotsuExtensionBridgePluginCApiRegisterWithRegistrar",
   "DesktopWebviewWindowPluginRegisterWithRegistrar",
   "FlutterInappwebviewWindowsPluginCApiRegisterWithRegistrar",
   "FlutterQjsPluginRegisterWithRegistrar",
   "FlutterSecureStorageWindowsPluginRegisterWithRegistrar",
   "IsarFlutterLibsPluginRegisterWithRegistrar",
   "MediaKitLibsWindowsVideoPluginCApiRegisterWithRegistrar",
   "MediaKitVideoPluginCApiRegisterWithRegistrar",
   "UrlLauncherWindowsRegisterWithRegistrar",
   "WindowToFrontPluginRegisterWithRegistrar"]

/-- The (identifier, entry point) pairs of the ten statements of
`RegisterPlugins`, in source order. -/
def pluginTable : List (String × String) :=
  pluginIdentifiers.zip pluginEntryPoints

/-- The plugin-name string of a lookup event, if the event is one. -/
def Event.lookupName? {ρ : Type} : Event ρ → Option String
  | .getRegistrarForPlugin n _ => some n
  | .registerWithRegistrar _ _ => none

/-- The (entry point, argument) pair of a registration call event, if the
event is one. -/
def Event.registration? {ρ : Type} : Event ρ → Option (String × ρ)
  | .getRegistrarForPlugin _ _ => none
  | .registerWithRegistrar n r => some (n, r)

/-- The sequence of plugin-name strings passed to `GetRegistrarForPlugin`
during a trace, in order. -/
def lookupNames {ρ : Type} (t : List (Event ρ)) : List String :=
  t.filterMap Event.lookupName?

/-- The sequence of registration entry-point calls of a trace, in order,
each with the registrar value it received. -/
def registrationCalls {ρ : Type} (t : List (Event ρ)) : List (String × ρ) :=
  t.filterMap Event.registration?

/-- A registry with no internal state, answering every lookup of a name `n`
with `f n`; the mock registries of the spec's test scenarios are of this
form. -/
def pureRegistry {ρ : Type} (f : String → ρ) : PluginRegistry Unit ρ :=
  ⟨fun s n => (f n, s)⟩

/-- The registrar values a registry returns for a list of plugin names
looked up in sequence, threading the registry state. -/
def registrarSeq {σ ρ : Type} (registry : PluginRegistry σ ρ) :
    List String → σ → List ρ × σ
  | [], s => ([], s)
  | n :: ns, s =>
    let p := registry.GetRegistrarForPlugin s n
    let q := registrarSeq registry ns p.2
    (p.1 :: q.1, q.2)

/-! Structural lemmas shared by the claim theorems. -/

theorem lookupNames_registerPlugins {σ ρ : Type} (registry : PluginRegistry σ ρ)
    (s : σ) : lookupNames (RegisterPlugins registry s).1 = pluginIdentifiers := rfl

theorem registrationCalls_registerPlugins {σ ρ : Type}
    (registry : PluginRegistry σ ρ) (s : σ) :
    registrationCalls (RegisterPlugins registry s).1 =
      pluginEntryPoints.zip (registrarSeq registry pluginIdentifiers s).1 := rfl

theorem state_registerPlugins {σ ρ : Type} (registry : PluginRegistry σ ρ)
    (s : σ) :
    (RegisterPlugins registry s).2 = (registrarSeq registry pluginIdentifiers s).2 := rfl

theorem registrarSeq_pureRegistry {ρ : Type} (f : String → ρ) (ns : List String) :
    registrarSeq (pureRegistry f) ns () = (ns.map f, ()) := by
  induction ns with
  | nil => rfl
  | cons n ns ih =>
      have h2 : (pureRegistry f).GetRegistrarForPlugin () n = (f n, ()) := rfl
      simp [registrarSeq, h2, ih]

theorem registrationCalls_pure {ρ : Type} (f : String → ρ) :
    registrationCalls (RegisterPlugins (pureRegistry f) ()).1 =
      pluginTable.map fun p => (p.2, f p.1) := by
  rw [registrationCalls_registerPlugins, registrarSeq_pureRegistry]
  rfl

theorem registrarSeq_length {σ ρ : Type} (registry : PluginRegistry σ ρ)
    (ns : List String) (s : σ) :
    ((registrarSeq registry ns s).1).length = ns.length := by
  induction ns generalizing s with
  | nil => rfl
  | cons n ns ih => simp [registrarSeq, ih]

theorem map_fst_registrationCalls {σ ρ : Type} (registry : PluginRegistry σ ρ)
    (s : σ) :
    (registrationCalls (RegisterPlugins registry s).1).map Prod.fst =
      pluginEntryPoints := by
  rw [registrationCalls_registerPlugins]
  apply List.map_fst_zip
  rw [registrarSeq_length]
  decide

/-- C1: one call to `RegisterPlugins` looks up each of the ten fixed plugin
identifiers exactly once — the lookup sequence is exactly the fixed
duplicate-free list of the ten identifiers, so every identifier is looked up
once, no identifier outside the list is looked up, and exactly ten external
registration entry points are called. -/
theorem registerPlugins_each_identifier_once {σ ρ : Type}
    (registry : PluginRegistry σ ρ) (s : σ) :
    lookupNames (RegisterPlugins registry s).1 = pluginIdentifiers ∧
    pluginIdentifiers.Nodup ∧
    (∀ n : String, (lookupNames (RegisterPlugins registry s).1).count n =
      if n ∈ pluginIdentifiers then 1 else 0) ∧
    (registrationCalls (RegisterPlugins registry s).1).length = 10 := by
  refine ⟨lookupNames_registerPlugins registry s, by decide, ?_, ?_⟩
  · intro n
    rw [lookupNames_registerPlugins]
    by_cases h : n ∈ pluginIdentifiers
    · simp [h, List.count_eq_one_of_mem (by decide) h]
    · simp [h, List.count_eq_zero.mpr h]
  · rw [registrationCalls_registerPlugins]
    simp [List.length_zip, registrarSeq_length]
    decide

/-- C2: the ten registrations happen in the fixed declared order: the
sequence of identifiers passed to `GetRegistrarForPlugin` equals the fixed
identifier list in source order, and the sequence of registration entry
points invoked equals the fixed entry-point list in the same order. -/
theorem registerPlugins_fixed_order {σ ρ : Type}
    (registry : PluginRegistry σ ρ) (s : σ) :
    lookupNames (RegisterPlugins registry s).1 = pluginIdentifiers ∧
    (registrationCalls (RegisterPlugins registry s).1).map Prod.fst =
      pluginEntryPoints := by
  exact ⟨lookupNames_registerPlugins registry s,
    map_fst_registrationCalls registry s⟩

/-- C3: `RegisterPlugins` passes to each registration entry point exactly
the registrar the registry returned for that entry point's identifier: for
every registry the registration calls are the fixed entry points zipped, in
order, with the registrar values of the ten lookups; and for a mock registry
answering each identifier `n` with a marker `f n`, the call log is exactly
the ten (entry point, marker-of-its-identifier) pairs in declared order. -/
theorem registerPlugins_forwards_looked_up_registrar {σ ρ ρ2 : Type}
    (registry : PluginRegistry σ ρ) (s : σ) (f : String → ρ2) :
    registrationCalls (RegisterPlugins registry s).1 =
      pluginEntryPoints.zip (registrarSeq registry pluginIdentifiers s).1 ∧
    registrationCalls (RegisterPlugins (pureRegistry f) ()).1 =
      pluginTable.map (fun p => (p.2, f p.1)) ∧
    (registrationCalls (RegisterPlugins (pureRegistry f) ()).1).length = 10 := by
  refine ⟨registrationCalls_registerPlugins registry s,
    registrationCalls_pure f, ?_⟩
  rw [registrationCalls_pure, List.length_map]
  decide

/-- C4: `RegisterPlugins` is stateless: a second call performs the same
fixed pass — the same lookup-name sequence and the same entry-point
sequence — as the first, and on a registry with no internal state the
second call's run is identical to the first in every component. -/
theorem registerPlugins_stateless {σ ρ ρ2 : Type}
    (registry : PluginRegistry σ ρ) (s : σ) (f : String → ρ2) :
    lookupNames (RegisterPlugins registry (RegisterPlugins registry s).2).1 =
      lookupNames (RegisterPlugins registry s).1 ∧
    (registrationCalls
        (RegisterPlugins registry (RegisterPlugins registry s).2).1).map
        Prod.fst =
      (registrationCalls (RegisterPlugins registry s).1).map Prod.fst ∧
    RegisterPlugins (pureRegistry f) (RegisterPlugins (pureRegistry f) ()).2 =
      RegisterPlugins (pureRegistry f) () := by
  exact ⟨by rw [lookupNames_registerPlugins, lookupNames_registerPlugins],
    by rw [map_fst_registrationCalls, map_fst_registrationCalls], rfl⟩

/-- C10: the lookup sequence is non-adaptive: for any two registries, over
any state and registrar types, the sequence of identifier strings passed to
`GetRegistrarForPlugin` is the same fixed sequence of ten literals,
independent of the registry and of every returned value. -/
theorem registerPlugins_lookups_nonadaptive {σ1 ρ1 σ2 ρ2 : Type}
    (r1 : PluginRegistry σ1 ρ1) (s1 : σ1) (r2 : PluginRegistry σ2 ρ2) (s2 : σ2) :
    lookupNames (RegisterPlugins r1 s1).1 = lookupNames (RegisterPlugins r2 s2).1 ∧
    lookupNames (RegisterPlugins r1 s1).1 = pluginIdentifiers :=
  ⟨rfl, rfl⟩

/-- C7: frame property: the trace of one call consists of exactly twenty
events — the ten lookups at the fixed identifiers and the ten registration
calls at the fixed entry points, in order — and the final registry state is
exactly the state produced by threading the ten lookups through the
registry, so the function performs no other computation, no other I/O, and
mutates nothing outside the host-owned registry.  (The C++ function returns
void; the model's result is the instrumentation trace and registry state
only.) -/
theorem registerPlugins_frame {σ ρ : Type} (registry : PluginRegistry σ ρ)
    (s : σ) :
    (RegisterPlugins registry s).1.length = 20 ∧
    lookupNames (RegisterPlugins registry s).1 = pluginIdentifiers ∧
    (lookupNames (RegisterPlugins registry s).1).length = 10 ∧
    (registrationCalls (RegisterPlugins registry s).1).map Prod.fst =
      pluginEntryPoints ∧
    (registrationCalls (RegisterPlugins registry s).1).length = 10 ∧
    (RegisterPlugins registry s).2 = (registrarSeq registry pluginIdentifiers s).2 := by
  refine ⟨rfl, lookupNames_registerPlugins registry s, ?_,
    map_fst_registrationCalls registry s, ?_, state_registerPlugins registry s⟩
  · rw [lookupNames_registerPlugins]; decide
  · rw [registrationCalls_registerPlugins, List.length_zip, registrarSeq_length]
    decide

/-- C8: each registrar is held only transiently: the arguments of the ten
registration calls are, position for position, exactly the ten looked-up
registrar values — each obtained value is forwarded at its own position and
the trace holds nothing after `RegisterPlugins` returns — and when the
looked-up values are pairwise distinct, each one appears as the argument of
exactly one registration call. -/
theorem registerPlugins_registrar_transient {σ ρ : Type} [DecidableEq ρ]
    (registry : PluginRegistry σ ρ) (s : σ)
    (h : ((registrarSeq registry pluginIdentifiers s).1).Nodup) :
    (registrationCalls (RegisterPlugins registry s).1).map Prod.snd =
      (registrarSeq registry pluginIdentifiers s).1 ∧
    ∀ r ∈ (registrarSeq registry pluginIdentifiers s).1,
      ((registrationCalls (RegisterPlugins registry s).1).map Prod.snd).count r
        = 1 := by
  have hsnd : (registrationCalls (RegisterPlugins registry s).1).map Prod.snd =
      (registrarSeq registry pluginIdentifiers s).1 := by
    rw [registrationCalls_registerPlugins]
    apply List.map_snd_zip
    rw [registrarSeq_length]
    decide
  refine ⟨hsnd, fun r hr => ?_⟩
  rw [hsnd]
  exact List.count_eq_one_of_mem h hr

/-- Witness for C8 at the mock registry whose marker for each identifier is
the identifier string itself (so the ten registrars are pairwise
distinct). -/
theorem registerPlugins_registrar_transient_w :
    ((registrarSeq (pureRegistry fun n => n) pluginIdentifiers ()).1).Nodup ∧
    ((registrationCalls (RegisterPlugins (pureRegistry fun n => n) ()).1).map
        Prod.snd =
      (registrarSeq (pureRegistry fun n => n) pluginIdentifiers ()).1 ∧
    ∀ r ∈ (registrarSeq (pureRegistry fun n => n) pluginIdentifiers ()).1,
      ((registrationCalls (RegisterPlugins (pureRegistry fun n => n) ()).1).map
          Prod.snd).count r = 1) :=
  ⟨by decide,
   registerPlugins_registrar_transient (pureRegistry fun n => n) () (by decide)⟩

/-- C9: `RegisterPlugins` never inspects a registrar: with a nullable
registrar type, for every registry, if the lookup at position `i` (for
identifier `id`, entry point `ep`) returns the null registrar (`none`),
the registration call at the same position still happens and receives that
`none` unchanged, and all ten registration calls still happen. -/
theorem registerPlugins_null_registrar_forwarded {σ μ : Type}
    (registry : PluginRegistry σ (Option μ)) (s : σ) (i : Nat) (id ep : String)
    (_hid : pluginIdentifiers.get? i = some id)
    (hep : pluginEntryPoints.get? i = some ep)
    (h : ((registrarSeq registry pluginIdentifiers s).1).get? i = some none) :
    (registrationCalls (RegisterPlugins registry s).1).get? i =
      some (ep, (none : Option μ)) ∧
    (registrationCalls (RegisterPlugins registry s).1).length = 10 := by
  rw [registrationCalls_registerPlugins]
  refine ⟨(List.get?_zip_eq_some _ _ _ i).mpr ⟨hep, h⟩, ?_⟩
  rw [List.length_zip, registrarSeq_length]
  decide

/-- Witness for C9 at the mock registry answering every lookup with the
null registrar, at position 3 (identifier FlutterQjsPlugin). -/
theorem registerPlugins_null_registrar_forwarded_w :
    pluginIdentifiers.get? 3 = some "FlutterQjsPlugin" ∧
    pluginEntryPoints.get? 3 = some "FlutterQjsPluginRegisterWithRegistrar" ∧
    ((registrarSeq (pureRegistry fun _ => (none : Option Unit))
        pluginIdentifiers ()).1).get? 3 = some none ∧
    ((registrationCalls
        (RegisterPlugins (pureRegistry fun _ => (none : Option Unit)) ()).1).get?
        3 = some ("FlutterQjsPluginRegisterWithRegistrar", (none : Option Unit)) ∧
    (registrationCalls
        (RegisterPlugins (pureRegistry fun _ => (none : Option Unit)) ()).1).length
      = 10) :=
  ⟨by decide, by decide, by decide,
   registerPlugins_null_registrar_forwarded
     (pureRegistry fun _ => (none : Option Unit)) () 3 "FlutterQjsPlugin"
     "FlutterQjsPluginRegisterWithRegistrar" (by decide) (by decide) (by decide)⟩

theorem mem_registrarSeq {σ ρ : Type} (registry : PluginRegistry σ ρ) :
    ∀ (ns : List String) (s : σ), ∀ r ∈ (registrarSeq registry ns s).1,
      ∃ st n, n ∈ ns ∧ r = (registry.GetRegistrarForPlugin st n).1
  | [], _ => by simp [registrarSeq]
  | n :: ns, s => by
      intro r hr
      rcases List.mem_cons.mp hr with h1 | h2
      · exact ⟨s, n, List.mem_cons_self n ns, h1⟩
      · obtain ⟨st, m, hm, he⟩ := mem_registrarSeq registry ns
          (registry.GetRegistrarForPlugin s n).2 r h2
        exact ⟨st, m, List.mem_cons_of_mem n hm, he⟩

/-- C5 counterexample: the claim asserts a non-null registrar for every
registry, but the code never checks the registrar it looks up: on the
registry whose every lookup returns the null registrar, the registration
calls receive `none`. -/
theorem registerPlugins_nonnull_cex :
    ¬ ∀ p ∈ registrationCalls
        (RegisterPlugins (pureRegistry fun _ => (none : Option Unit)) ()).1,
        p.2 ≠ none := by
  intro h
  exact h ("DartotsuExtensionBridgePluginCApiRegisterWithRegistrar", none)
    (by decide) rfl

/-- C5 amended: for every registry whose lookups of the ten plugin
identifiers all return a non-null registrar, each of the ten registration
entry-point calls receives a non-null registrar, namely exactly the value
the registry returned for that call's identifier (the calls are the fixed
entry points zipped with the ten lookup results). -/
theorem registerPlugins_nonnull_registrars {σ μ : Type}
    (registry : PluginRegistry σ (Option μ)) (s : σ)
    (h : ∀ (st : σ) (n : String), n ∈ pluginIdentifiers →
      (registry.GetRegistrarForPlugin st n).1 ≠ none) :
    registrationCalls (RegisterPlugins registry s).1 =
      pluginEntryPoints.zip (registrarSeq registry pluginIdentifiers s).1 ∧
    ∀ p ∈ registrationCalls (RegisterPlugins registry s).1, p.2 ≠ none := by
  refine ⟨registrationCalls_registerPlugins registry s, fun p hp => ?_⟩
  rw [registrationCalls_registerPlugins] at hp
  have h2 : p.2 ∈ (registrarSeq registry pluginIdentifiers s).1 := by
    have := List.of_mem_zip (show (p.1, p.2) ∈ _ from hp)
    exact this.2
  obtain ⟨st, n, hn, he⟩ := mem_registrarSeq registry pluginIdentifiers s p.2 h2
  rw [he]
  exact h st n hn

/-- Witness for the amended C5 at a registry answering every lookup with a
non-null registrar. -/
theorem registerPlugins_nonnull_registrars_w :
    (∀ (st : Unit) (n : String), n ∈ pluginIdentifiers →
      ((pureRegistry fun _ => (some 0 : Option Nat)).GetRegistrarForPlugin st
          n).1 ≠ none) ∧
    (registrationCalls
        (RegisterPlugins (pureRegistry fun _ => (some 0 : Option Nat)) ()).1 =
      pluginEntryPoints.zip
        (registrarSeq (pureRegistry fun _ => (some 0 : Option Nat))
          pluginIdentifiers ()).1 ∧
    ∀ p ∈ registrationCalls
        (RegisterPlugins (pureRegistry fun _ => (some 0 : Option Nat)) ()).1,
      p.2 ≠ none) :=
  ⟨fun _ _ _ => by simp [pureRegistry],
   registerPlugins_nonnull_registrars (pureRegistry fun _ => some 0) ()
     (fun _ _ _ => by simp [pureRegistry])⟩

/-! A second, fallible embedding for the error-handling claim: registrar
lookups and the external registration entry points may fail, and — as with
C++ exceptions — a failure aborts the remaining statements and propagates
to the caller.  The entry points are abstracted as one external function
`entry` from the entry point's name and the registrar argument to an
`Except` outcome. -/

/-- A registry whose `GetRegistrarForPlugin` may fail with an error of type
`ε`. -/
structure FalliblePluginRegistry (ε ρ : Type) where
  GetRegistrarForPlugin : String → Except ε ρ

/-- Fallible embedding of `RegisterPlugins`: the same ten statements, with
each lookup's and each entry-point call's failure propagated exactly as a
C++ exception would be — the remaining statements are skipped and the error
reaches the caller unmodified. -/
def RegisterPluginsE {ε ρ : Type} (entry : String → ρ → Except ε Unit)
    (registry : FalliblePluginRegistry ε ρ) : Except ε Unit :=
  (registry.GetRegistrarForPlugin "DartotsuExtensionBridgePluginCApi").bind fun r1 =>
  (entry "DartotsuExtensionBridgePluginCApiRegisterWithRegistrar" r1).bind fun _ =>
  (registry.GetRegistrarForPlugin "DesktopWebviewWindowPlugin").bind fun r2 =>
  (entry "DesktopWebviewWindowPluginRegisterWithRegistrar" r2).bind fun _ =>
  (registry.GetRegistrarForPlugin "FlutterInappwebviewWindowsPluginCApi").bind fun r3 =>
  (entry "FlutterInappwebviewWindowsPluginCApiRegisterWithRegistrar" r3).bind fun _ =>
  (registry.GetRegistrarForPlugin "FlutterQjsPlugin").bind fun r4 =>
  (entry "FlutterQjsPluginRegisterWithRegistrar" r4).bind fun _ =>
  (registry.GetRegistrarForPlugin "FlutterSecureStorageWindowsPlugin").bind fun r5 =>
  (entry "FlutterSecureStorageWindowsPluginRegisterWithRegistrar" r5).bind fun _ =>
  (registry.GetRegistrarForPlugin "IsarFlutterLibsPlugin").bind fun r6 =>
  (entry "IsarFlutterLibsPluginRegisterWithRegistrar" r6).bind fun _ =>
  (registry.GetRegistrarForPlugin "MediaKitLibsWindowsVideoPluginCApi").bind fun r7 =>
  (entry "MediaKitLibsWindowsVideoPluginCApiRegisterWithRegistrar" r7).bind fun _ =>
  (registry.GetRegistrarForPlugin "MediaKitVideoPluginCApi").bind fun r8 =>
  (entry "MediaKitVideoPluginCApiRegisterWithRegistrar" r8).bind fun _ =>
  (registry.GetRegistrarForPlugin "UrlLauncherWindows").bind fun r9 =>
  (entry "UrlLauncherWindowsRegisterWithRegistrar" r9).bind fun _ =>
  (registry.GetRegistrarForPlugin "WindowToFrontPlugin").bind fun r10 =>
  entry "WindowToFrontPluginRegisterWithRegistrar" r10

/-- The same lookup-then-register sequence, driven by a table of
(identifier, entry point) pairs; `RegisterPluginsE` is this runner applied
to the fixed `pluginTable`. -/
def runTable {ε ρ : Type} (entry : String → ρ → Except ε Unit)
    (registry : FalliblePluginRegistry ε ρ) :
    List (String × String) → Except ε Unit
  | [] => Except.ok ()
  | p :: rest =>
      (registry.GetRegistrarForPlugin p.1).bind fun r =>
      (entry p.2 r).bind fun _ => runTable entry registry rest

/-- One lookup-and-register step of the fallible model succeeds. -/
def CallSucceeds {ε ρ : Type} (entry : String → ρ → Except ε Unit)
    (registry : FalliblePluginRegistry ε ρ) (p : String × String) : Prop :=
  ∃ r, registry.GetRegistrarForPlugin p.1 = Except.ok r ∧
    entry p.2 r = Except.ok ()

/-- The error value `e` was produced by one of the table's own calls — a
registrar lookup or a registration entry point. -/
def ErrorSource {ε ρ : Type} (entry : String → ρ → Except ε Unit)
    (registry : FalliblePluginRegistry ε ρ) (table : List (String × String))
    (e : ε) : Prop :=
  (∃ p ∈ table, registry.GetRegistrarForPlugin p.1 = Except.error e) ∨
  (∃ p ∈ table, ∃ r, registry.GetRegistrarForPlugin p.1 = Except.ok r ∧
    entry p.2 r = Except.error e)

theorem except_bind_ok_unit {ε : Type} (x : Except ε Unit) :
    x.bind (fun _ => Except.ok ()) = x := by
  cases x with
  | error e => rfl
  | ok a => cases a; rfl

theorem registerPluginsE_eq_runTable {ε ρ : Type}
    (entry : String → ρ → Except ε Unit)
    (registry : FalliblePluginRegistry ε ρ) :
    RegisterPluginsE entry registry = runTable entry registry pluginTable := by
  simp [RegisterPluginsE, runTable, pluginTable, pluginIdentifiers,
    pluginEntryPoints, except_bind_ok_unit]

theorem errorSource_cons {ε ρ : Type} {entry : String → ρ → Except ε Unit}
    {registry : FalliblePluginRegistry ε ρ} {rest : List (String × String)}
    {e : ε} (p : String × String)
    (h : ErrorSource entry registry rest e) :
    ErrorSource entry registry (p :: rest) e := by
  rcases h with ⟨q, hq, hlook⟩ | ⟨q, hq, r, h1, h2⟩
  · exact Or.inl ⟨q, List.mem_cons_of_mem _ hq, hlook⟩
  · exact Or.inr ⟨q, List.mem_cons_of_mem _ hq, r, h1, h2⟩

theorem runTable_ok_or_error {ε ρ : Type} (entry : String → ρ → Except ε Unit)
    (registry : FalliblePluginRegistry ε ρ) :
    ∀ table, runTable entry registry table = Except.ok () ∨
      ∃ e, runTable entry registry table = Except.error e ∧
        ErrorSource entry registry table e
  | [] => Or.inl rfl
  | p :: rest => by
      rcases h1 : registry.GetRegistrarForPlugin p.1 with e | r
      · exact Or.inr ⟨e, by simp [runTable, h1, Except.bind],
          Or.inl ⟨p, List.mem_cons_self p rest, h1⟩⟩
      · rcases h2 : entry p.2 r with e | u
        · exact Or.inr ⟨e, by simp [runTable, h1, h2, Except.bind],
            Or.inr ⟨p, List.mem_cons_self p rest, r, h1, h2⟩⟩
        · cases u
          rcases runTable_ok_or_error entry registry rest with h3 | ⟨e, h3, hsrc⟩
          · exact Or.inl (by simp [runTable, h1, h2, Except.bind, h3])
          · exact Or.inr ⟨e, by simp [runTable, h1, h2, Except.bind, h3],
              errorSource_cons p hsrc⟩

theorem runTable_lookup_error {ε ρ : Type} (entry : String → ρ → Except ε Unit)
    (registry : FalliblePluginRegistry ε ρ) :
    ∀ (t1 : List (String × String)) (p : String × String)
      (t2 : List (String × String)),
      (∀ q ∈ t1, CallSucceeds entry registry q) →
      ∀ e, registry.GetRegistrarForPlugin p.1 = Except.error e →
        runTable entry registry (t1 ++ p :: t2) = Except.error e
  | [], p, t2 => by
      intro _ e he
      simp [runTable, he, Except.bind]
  | q :: t1, p, t2 => by
      intro hsucc e he
      obtain ⟨r, h1, h2⟩ := hsucc q (List.mem_cons_self q t1)
      have ih := runTable_lookup_error entry registry t1 p t2
        (fun x hx => hsucc x (List.mem_cons_of_mem q hx)) e he
      simp [runTable, h1, h2, Except.bind, ih]

theorem runTable_entry_error {ε ρ : Type} (entry : String → ρ → Except ε Unit)
    (registry : FalliblePluginRegistry ε ρ) :
    ∀ (t1 : List (String × String)) (p : String × String)
      (t2 : List (String × String)),
      (∀ q ∈ t1, CallSucceeds entry registry q) →
      ∀ r e, registry.GetRegistrarForPlugin p.1 = Except.ok r →
        entry p.2 r = Except.error e →
        runTable entry registry (t1 ++ p :: t2) = Except.error e
  | [], p, t2 => by
      intro _ r e h1 h2
      simp [runTable, h1, h2, Except.bind]
  | q :: t1, p, t2 => by
      intro hsucc r e h1 h2
      obtain ⟨r0, hq1, hq2⟩ := hsucc q (List.mem_cons_self q t1)
      have ih := runTable_entry_error entry registry t1 p t2
        (fun x hx => hsucc x (List.mem_cons_of_mem q hx)) r e h1 h2
      simp [runTable, hq1, hq2, Except.bind, ih]

theorem runTable_all_ok {ε ρ : Type} (entry : String → ρ → Except ε Unit)
    (registry : FalliblePluginRegistry ε ρ) :
    ∀ table, (∀ p ∈ table, CallSucceeds entry registry p) →
      runTable entry registry table = Except.ok ()
  | [] => fun _ => rfl
  | p :: rest => fun h => by
      obtain ⟨r, h1, h2⟩ := h p (List.mem_cons_self p rest)
      simp [runTable, h1, h2, Except.bind,
        runTable_all_ok entry registry rest
          (fun q hq => h q (List.mem_cons_of_mem p hq))]

/-- C6: `RegisterPlugins` defines no error path of its own.  In the
fallible embedding: (1) every run either succeeds or returns an error that
was produced, unmodified, by one of its own registrar lookups or
registration entry-point calls; (2) if the first failing call is a lookup
failing with `e`, the whole run fails with exactly `e` (no retry, no
recovery); (3) likewise when the first failing call is a registration
entry point; (4) when every lookup and entry point succeeds, the run
succeeds — the function validates nothing and rejects nothing on its
own. -/
theorem registerPluginsE_propagates_failures {ε ρ : Type}
    (entry : String → ρ → Except ε Unit)
    (registry : FalliblePluginRegistry ε ρ) :
    (RegisterPluginsE entry registry = Except.ok () ∨
      ∃ e, RegisterPluginsE entry registry = Except.error e ∧
        ErrorSource entry registry pluginTable e) ∧
    (∀ t1 p t2, pluginTable = t1 ++ p :: t2 →
      (∀ q ∈ t1, CallSucceeds entry registry q) →
      ∀ e, registry.GetRegistrarForPlugin p.1 = Except.error e →
        RegisterPluginsE entry registry = Except.error e) ∧
    (∀ t1 p t2, pluginTable = t1 ++ p :: t2 →
      (∀ q ∈ t1, CallSucceeds entry registry q) →
      ∀ r e, registry.GetRegistrarForPlugin p.1 = Except.ok r →
        entry p.2 r = Except.error e →
        RegisterPluginsE entry registry = Except.error e) ∧
    ((∀ p ∈ pluginTable, CallSucceeds entry registry p) →
      RegisterPluginsE entry registry = Except.ok ()) := by
  rw [registerPluginsE_eq_runTable]
  refine ⟨runTable_ok_or_error entry registry pluginTable, ?_, ?_, ?_⟩
  · intro t1 p t2 hsplit hsucc e he
    rw [hsplit]
    exact runTable_lookup_error entry registry t1 p t2 hsucc e he
  · intro t1 p t2 hsplit hsucc r e h1 h2
    rw [hsplit]
    exact runTable_entry_error entry registry t1 p t2 hsucc r e h1 h2
  · exact runTable_all_ok entry registry pluginTable

/-- Witness for C6: a registry whose every lookup fails with error `7`
makes the whole run fail with exactly `7`. -/
theorem registerPluginsE_propagates_failures_w :
    pluginTable = [] ++ ("DartotsuExtensionBridgePluginCApi",
      "DartotsuExtensionBridgePluginCApiRegisterWithRegistrar") ::
      pluginTable.tail ∧
    (FalliblePluginRegistry.mk (fun _ => Except.error (7 : Nat)) :
        FalliblePluginRegistry Nat Nat).GetRegistrarForPlugin
      "DartotsuExtensionBridgePluginCApi" = Except.error 7 ∧
    RegisterPluginsE (fun _ (_ : Nat) => Except.ok ())
      (FalliblePluginRegistry.mk fun _ => Except.error (7 : Nat)) =
      Except.error (7 : Nat) :=
  ⟨by decide, rfl,
   (registerPluginsE_propagates_failures (fun _ (_ : Nat) => Except.ok ())
       (FalliblePluginRegistry.mk fun _ => Except.error (7 : Nat))).2.1
     [] ("DartotsuExtensionBridgePluginCApi",
       "DartotsuExtensionBridgePluginCApiRegisterWithRegistrar")
     pluginTable.tail (by decide) (by intro q hq; exact absurd hq (by simp))
     7 rfl⟩

end Aniya
